import Mathlib

/-!
Verification development for the "missing star" chart generator
(`src/app.py`).  The application loads a star catalog, filters it to
apparent magnitude at most `MAX_PLOT_MAG` and to non-null HIP identifiers,
parses the observer's date and time, computes per-star altitudes through
the charting library, keeps stars above the horizon, selects removal
candidates of magnitude at most the requested threshold `n`, samples `k`
of them without replacement, and renders a problem chart (candidates
removed) and an answer chart.

External library calls are embedded as follows:
* the pandas catalog becomes a `List Star` input (`Star._table.to_pandas()`
  supplies the rows);
* the charting library's altitude function is abstracted as a parameter
  `altF : ℚ → ℚ → ℚ` fed the row's right ascension and declination, exactly
  as the source feeds `tmp_plot.altaz(row["ra"], row["dec"])` and keeps the
  altitude component;
* pandas `DataFrame.sample(k)` (uniform sampling without replacement) is
  embedded as `sampleIdx`, drawing `k` row positions without replacement,
  with the randomness supplied by an oracle `rand : Nat → Nat`;
* Streamlit calls (`st.info`, `st.error`, `st.stop`, `st.success`,
  `st.image`, `st.write`) and image exports become an explicit trace of
  `Effect`s; `st.stop` ends the trace.
-/

namespace AstroApp

/-- A catalog row, as used by `src/app.py`: HIP identifier (nullable),
right ascension, declination and apparent magnitude. -/
structure Star where
  hip : Option Nat
  ra : ℚ
  dec : ℚ
  magnitude : ℚ
deriving DecidableEq, Repr

/-- `MAX_PLOT_MAG = 4.0` from `src/app.py` line 14. -/
def MAX_PLOT_MAG : ℚ := 4

/-- `load_stars_safe` (`src/app.py` lines 20-30): the full catalog table is
filtered to magnitude at most `MAX_PLOT_MAG`, then to rows whose HIP is
not null. -/
def load_stars_safe (table : List Star) : List Star :=
  ((table.filter (fun s => decide (s.magnitude ≤ MAX_PLOT_MAG))).filter
    (fun s => s.hip.isSome))

/-- A wall-clock date-time with an optional timezone name, the part of a
Python `datetime` this application reads and writes. -/
structure DateTime where
  year : Nat
  month : Nat
  day : Nat
  hour : Nat
  minute : Nat
  tz : Option String
deriving DecidableEq, Repr

def isDigitChar (c : Char) : Bool := decide ('0' ≤ c) && decide (c ≤ '9')

def digitVal (c : Char) : Nat := c.toNat - Char.toNat '0'

def twoDigits (a b : Char) : Option Nat :=
  if isDigitChar a && isDigitChar b then some (10 * digitVal a + digitVal b)
  else none

def fourDigits (a b c d : Char) : Option Nat :=
  if isDigitChar a && isDigitChar b && isDigitChar c && isDigitChar d then
    some (1000 * digitVal a + 100 * digitVal b + 10 * digitVal c + digitVal d)
  else none

def isLeapYear (y : Nat) : Bool :=
  (decide (y % 4 = 0) && decide (y % 100 ≠ 0)) || decide (y % 400 = 0)

def daysInMonth (y m : Nat) : Nat :=
  if m = 2 then (if isLeapYear y then 29 else 28)
  else if m = 4 ∨ m = 6 ∨ m = 9 ∨ m = 11 then 30
  else 31

/-- Modelled from the spec: the date/time validation delegated by
`src/app.py` line 68 to `datetime.fromisoformat` (Python standard library,
not part of this repository).  The spec describes the accepted inputs as a
date in `YYYY-MM-DD` form and a time in `HH:MM` form; this parser accepts
exactly those, validating month, day-of-month (with leap years), hour and
minute ranges as `fromisoformat` does. -/
def parseDateTime (date_str time_str : String) : Option DateTime :=
  match date_str.toList, time_str.toList with
  | [y1, y2, y3, y4, c1, m1, m2, c2, d1, d2], [h1, h2, c3, mi1, mi2] =>
    if c1 = '-' ∧ c2 = '-' ∧ c3 = ':' then
      match fourDigits y1 y2 y3 y4, twoDigits m1 m2, twoDigits d1 d2,
          twoDigits h1 h2, twoDigits mi1 mi2 with
      | some y, some mo, some d, some h, some mi =>
        if 1 ≤ mo ∧ mo ≤ 12 ∧ 1 ≤ d ∧ d ≤ daysInMonth y mo ∧ h ≤ 23 ∧ mi ≤ 59 then
          some ⟨y, mo, d, h, mi, none⟩
        else none
      | _, _, _, _, _ => none
    else none
  | _, _ => none

/-- `dt.replace(tzinfo=ZoneInfo("Asia/Seoul"))` from `src/app.py` line 69:
the timezone is always the fixed string, never a user input. -/
def replaceSeoul (dt : DateTime) : DateTime :=
  { dt with tz := some ("Asia/Seoul") }

/-- The `Observer` built at `src/app.py` lines 75-79. -/
structure Observer where
  dt : DateTime
  lat : ℚ
  lon : ℚ
deriving DecidableEq, Repr

/-- One user-visible or filesystem effect of a request, in order. -/
inductive Effect where
  | info (msg : String)
  | errorMsg (msg : String)
  | exportImage (path : String)
  | successMsg (msg : String)
  | showImage (path : String)
  | writeRemoved (hips : List Nat)
deriving DecidableEq, Repr

def TMP_DIR : String := "/tmp"

/-- Embedding of pandas `DataFrame.sample(k)` on a frame with `avail` as
its current row positions: pick a position (chosen by the randomness
oracle `rand`, reduced modulo the number of remaining rows), remove it,
and repeat `k` times — sampling without replacement. -/
def sampleIdx (rand : Nat → Nat) : Nat → List Nat → Nat → List Nat
  | 0, _, _ => []
  | k + 1, avail, step =>
    match avail with
    | [] => []
    | a :: rest =>
      let l := a :: rest
      let i := rand step % l.length
      l.get ⟨i, Nat.mod_lt _ (Nat.succ_pos rest.length)⟩ ::
        sampleIdx rand k (l.eraseIdx i) (step + 1)

/-- The catalog rows with the altitude column attached
(`df["alt"] = alts`, `src/app.py` lines 86-92): each loaded star is paired
with the altitude the charting library reports for its ra/dec. -/
def rowsOf (table : List Star) (altF : ℚ → ℚ → ℚ) : List (Star × ℚ) :=
  (load_stars_safe table).map (fun s => (s, altF s.ra s.dec))

/-- `df_visible = df[df["alt"] > 0]` (`src/app.py` line 93). -/
def visibleOf (table : List Star) (altF : ℚ → ℚ → ℚ) : List (Star × ℚ) :=
  (rowsOf table altF).filter (fun p => decide (0 < p.2))

/-- `df_cand = df_visible[df_visible["magnitude"] <= n]`
(`src/app.py` line 96). -/
def candOf (table : List Star) (altF : ℚ → ℚ → ℚ) (n : ℚ) : List (Star × ℚ) :=
  (visibleOf table altF).filter (fun p => decide (p.1.magnitude ≤ n))

/-- The row positions drawn by `df_cand.sample(k)` (`src/app.py` line 103). -/
def idxsOf (table : List Star) (altF : ℚ → ℚ → ℚ) (n : ℚ) (k : Nat)
    (rand : Nat → Nat) : List Nat :=
  sampleIdx rand k (List.range (candOf table altF n).length) 0

/-- `missing_stars = df_cand.sample(k)` (`src/app.py` line 103): the rows
of `df_cand` at the sampled positions. -/
def missingOf (table : List Star) (altF : ℚ → ℚ → ℚ) (n : ℚ) (k : Nat)
    (rand : Nat → Nat) : List (Star × ℚ) :=
  (idxsOf table altF n k rand).filterMap (fun i => (candOf table altF n)[i]?)

/-- `missing_hips = set(missing_stars["hip"])` (`src/app.py` line 104). -/
def hipsOf (table : List Star) (altF : ℚ → ℚ → ℚ) (n : ℚ) (k : Nat)
    (rand : Nat → Nat) : List Nat :=
  (missingOf table altF n k rand).filterMap (fun p => p.1.hip)

/-- `df_problem = df_visible[~df_visible["hip"].isin(missing_hips)]`
(`src/app.py` line 112): visible rows whose HIP is not a removed HIP
(a null HIP is never `isin` a set, so such a row would be kept). -/
def problemOf (table : List Star) (altF : ℚ → ℚ → ℚ) (n : ℚ) (k : Nat)
    (rand : Nat → Nat) : List (Star × ℚ) :=
  (visibleOf table altF).filter
    (fun p => p.1.hip.all (fun h => decide (h ∉ hipsOf table altF n k rand)))

/-- The data a successful request computes. -/
structure ChartData where
  observer : Observer
  df_visible : List (Star × ℚ)
  df_cand : List (Star × ℚ)
  missing_idxs : List Nat
  missing_stars : List (Star × ℚ)
  missing_hips : List Nat
  df_problem : List (Star × ℚ)
deriving DecidableEq, Repr

/-- The outcome of one button click: the ordered effect trace and, when the
run succeeded, the computed data. -/
structure RunOut where
  effects : List Effect
  data : Option ChartData
deriving DecidableEq, Repr

/-- The request body of `src/app.py` lines 62-162, straight-lined: parse the
date-time (inline error and stop on failure), build the observer with the
fixed Seoul timezone, load and filter the catalog, attach altitudes, keep
stars above the horizon, keep removal candidates of magnitude at most `n`,
fail when fewer than `k` candidates remain, otherwise sample `k` rows
without replacement, draw the problem chart without the removed HIPs,
export both images and display the results. -/
def runRequest (table : List Star) (date_str time_str : String)
    (lat lon : ℚ) (n : ℚ) (k : Nat) (altF : ℚ → ℚ → ℚ)
    (rand : Nat → Nat) : RunOut :=
  match parseDateTime date_str time_str with
  | none =>
    ⟨[Effect.info ("성도 생성 중… 잠시만 기다려 주세요."),
      Effect.errorMsg ("날짜 또는 시간 형식이 잘못되었습니다.")], none⟩
  | some dt0 =>
    if (candOf table altF n).length < k then
      ⟨[Effect.info ("성도 생성 중… 잠시만 기다려 주세요."),
        Effect.errorMsg ("지울 수 있는 별이 부족합니다. (후보 "
          ++ toString (candOf table altF n).length ++ "개)")],
        none⟩
    else
      ⟨[Effect.info ("성도 생성 중… 잠시만 기다려 주세요."),
        Effect.exportImage (TMP_DIR ++ "/problem.png"),
        Effect.exportImage (TMP_DIR ++ "/answer.png"),
        Effect.successMsg ("성도 생성 완료!"),
        Effect.showImage (TMP_DIR ++ "/problem.png"),
        Effect.showImage (TMP_DIR ++ "/answer.png"),
        Effect.writeRemoved (hipsOf table altF n k rand)],
        some ⟨⟨replaceSeoul dt0, lat, lon⟩, visibleOf table altF,
          candOf table altF n, idxsOf table altF n k rand,
          missingOf table altF n k rand, hipsOf table altF n k rand,
          problemOf table altF n k rand⟩⟩

/-- Whether a trace reports an inline error. -/
def hasErrorEffect (es : List Effect) : Bool :=
  es.any (fun e => match e with | Effect.errorMsg _ => true | _ => false)

/-- Whether a trace writes any image file. -/
def hasExportEffect (es : List Effect) : Bool :=
  es.any (fun e => match e with | Effect.exportImage _ => true | _ => false)

/-- Modelled from the spec: the altitude component of the equatorial-to-local
conversion invoked at `src/app.py` line 89 as `tmp_plot.altaz(ra, dec)`.
The conversion itself is not under `src/`; the spec describes it as a single
pure function computing `sin(alt) = sin(lat)sin(dec) + cos(lat)cos(dec)cos(ha)`
for the observer's latitude and the star's hour angle, clamping that value to
`[-1, 1]`, and applying the inverse sine.  Angles are degrees in and degrees
out. -/
noncomputable def altaz (lat dec ha : ℝ) : ℝ :=
  Real.arcsin (max (-1 : ℝ) (min 1
    (Real.sin (lat * Real.pi / 180) * Real.sin (dec * Real.pi / 180) +
      Real.cos (lat * Real.pi / 180) * Real.cos (dec * Real.pi / 180) *
        Real.cos (ha * Real.pi / 180)))) * 180 / Real.pi

/-- The spherical-trigonometry identity exactly as the spec words it:
`sin(alt) = sin(lat)sin(dec) + cos(lat)cos(dec)cos(hour-angle)`. -/
noncomputable def sinAltFormula (lat dec ha : ℝ) : ℝ :=
  Real.sin (lat * Real.pi / 180) * Real.sin (dec * Real.pi / 180) +
    Real.cos (lat * Real.pi / 180) * Real.cos (dec * Real.pi / 180) *
      Real.cos (ha * Real.pi / 180)

/-- Clamping into `[-1, 1]`, written by cases as the spec's
"clamped to [-1,1] before inverse-sine". -/
noncomputable def clampToUnit (x : ℝ) : ℝ :=
  if x < -1 then -1 else if 1 < x then 1 else x

/-- The spec's description of the altitude computation as a literal
composition: compute the sine via `sinAltFormula`, clamp via `clampToUnit`,
apply the inverse sine, convert back to degrees. -/
noncomputable def specAltitude (lat dec ha : ℝ) : ℝ :=
  Real.arcsin (clampToUnit (sinAltFormula lat dec ha)) * 180 / Real.pi

/-- A small concrete catalog used to evaluate the pipeline on closed runs:
three eligible rows, one row with a null HIP, one row over `MAX_PLOT_MAG`. -/
def demoTable : List Star :=
  [⟨some 1, 10, 20, 1⟩,
   ⟨some 2, 30, 40, 2⟩,
   ⟨some 3, 50, 60, 3⟩,
   ⟨none, 70, 80, 1⟩,
   ⟨some 4, 90, -10, 5⟩]

/-- A concrete altitude oracle for closed runs: the altitude is the
declination. -/
def demoAlt : ℚ → ℚ → ℚ := fun _ dec => dec

/-- A concrete randomness oracle for closed runs. -/
def demoRand : Nat → Nat := fun _ => 0

theorem sampleIdx_zero (rand : Nat → Nat) (avail : List Nat) (step : Nat) :
    sampleIdx rand 0 avail step = [] := rfl

theorem sampleIdx_succ_cons (rand : Nat → Nat) (k step : Nat) (a : Nat)
    (rest : List Nat) :
    sampleIdx rand (k + 1) (a :: rest) step =
      (a :: rest).get ⟨rand step % (a :: rest).length,
          Nat.mod_lt _ (Nat.succ_pos rest.length)⟩ ::
        sampleIdx rand k ((a :: rest).eraseIdx (rand step % (a :: rest).length))
          (step + 1) := rfl

theorem sampleIdx_length (rand : Nat → Nat) :
    ∀ (k : Nat) (avail : List Nat) (step : Nat), k ≤ avail.length →
      (sampleIdx rand k avail step).length = k := by
  intro k
  induction k with
  | zero => intro avail step _; rfl
  | succ k ih =>
    intro avail step h
    match avail with
    | [] => simp at h
    | a :: rest =>
      have hi : rand step % (a :: rest).length < (a :: rest).length :=
        Nat.mod_lt _ (Nat.succ_pos rest.length)
      rw [sampleIdx_succ_cons, List.length_cons, ih]
      rw [List.length_eraseIdx_of_lt hi]
      simp only [List.length_cons] at h ⊢
      omega

theorem sampleIdx_subset (rand : Nat → Nat) :
    ∀ (k : Nat) (avail : List Nat) (step : Nat) (x : Nat),
      x ∈ sampleIdx rand k avail step → x ∈ avail := by
  intro k
  induction k with
  | zero => intro avail step x hx; simp [sampleIdx_zero] at hx
  | succ k ih =>
    intro avail step x hx
    match avail with
    | [] => simp [sampleIdx] at hx
    | a :: rest =>
      rw [sampleIdx_succ_cons] at hx
      rcases List.mem_cons.mp hx with h | h
      · exact h ▸ List.get_mem _ _ _
      · exact List.eraseIdx_subset _ _ (ih _ _ _ h)

theorem get_not_mem_eraseIdx {α : Type} (l : List α) (hnd : l.Nodup)
    (i : Fin l.length) : l.get i ∉ l.eraseIdx i := by
  intro hmem
  rw [List.mem_eraseIdx_iff_getElem] at hmem
  obtain ⟨j, hjlen, hj, hget⟩ := hmem
  have : l.get ⟨j, hjlen⟩ = l.get i := hget
  exact hj (congrArg Fin.val ((hnd.get_inj_iff).mp this))

theorem sampleIdx_nodup (rand : Nat → Nat) :
    ∀ (k : Nat) (avail : List Nat) (step : Nat), avail.Nodup →
      (sampleIdx rand k avail step).Nodup := by
  intro k
  induction k with
  | zero => intro avail step _; simp [sampleIdx_zero]
  | succ k ih =>
    intro avail step hnd
    match avail with
    | [] => simp [sampleIdx]
    | a :: rest =>
      rw [sampleIdx_succ_cons]
      refine List.nodup_cons.mpr ⟨?_, ?_⟩
      · intro hmem
        exact get_not_mem_eraseIdx _ hnd _ (sampleIdx_subset rand _ _ _ _ hmem)
      · exact ih _ _ (((a :: rest).eraseIdx_sublist _).nodup hnd)

theorem filterMap_getElem_length {α : Type} (l : List α) :
    ∀ idxs : List Nat, (∀ i ∈ idxs, i < l.length) →
      (idxs.filterMap (fun i => l[i]?)).length = idxs.length := by
  intro idxs
  induction idxs with
  | nil => intro _; rfl
  | cons i t ih =>
    intro h
    have hi : i < l.length := h i (List.mem_cons_self i t)
    rw [List.filterMap_cons, List.getElem?_eq_getElem hi]
    simp [ih (fun j hj => h j (List.mem_cons_of_mem i hj))]

theorem mem_filterMap_getElem {α : Type} (l : List α) (idxs : List Nat) (x : α)
    (h : x ∈ idxs.filterMap (fun i => l[i]?)) : x ∈ l := by
  rw [List.mem_filterMap] at h
  obtain ⟨i, _, hx⟩ := h
  obtain ⟨hlt, he⟩ := List.getElem?_eq_some_iff.mp hx
  exact he ▸ List.getElem_mem hlt

theorem mem_candOf_unpack (table : List Star) (altF : ℚ → ℚ → ℚ) (n : ℚ)
    (p : Star × ℚ) (hp : p ∈ candOf table altF n) :
    p.1 ∈ table ∧ p.1.hip.isSome = true ∧ p.1.magnitude ≤ MAX_PLOT_MAG ∧
      p.1.magnitude ≤ n ∧ 0 < p.2 ∧ p ∈ visibleOf table altF := by
  unfold candOf at hp
  rw [List.mem_filter] at hp
  obtain ⟨hvis, hmag⟩ := hp
  have hvis0 := hvis
  unfold visibleOf at hvis
  rw [List.mem_filter] at hvis
  obtain ⟨hrow, halt⟩ := hvis
  unfold rowsOf at hrow
  rw [List.mem_map] at hrow
  obtain ⟨s, hs, hps⟩ := hrow
  unfold load_stars_safe at hs
  rw [List.mem_filter] at hs
  obtain ⟨hs1, hhip⟩ := hs
  rw [List.mem_filter] at hs1
  obtain ⟨htab, hmax⟩ := hs1
  cases hps
  exact ⟨htab, hhip, of_decide_eq_true hmax, of_decide_eq_true hmag,
    of_decide_eq_true halt, hvis0⟩

theorem option_all_decide_iff (o : Option Nat) (hips : List Nat) :
    (o.all (fun h => decide (h ∉ hips)) = true) ↔
      ∀ h, o = some h → h ∉ hips := by
  cases o with
  | none => simp [Option.all]
  | some h => simp [Option.all]

theorem mem_missingOf_mem_cand (table : List Star) (altF : ℚ → ℚ → ℚ) (n : ℚ)
    (k : Nat) (rand : Nat → Nat) (p : Star × ℚ)
    (hp : p ∈ missingOf table altF n k rand) : p ∈ candOf table altF n := by
  unfold missingOf at hp
  exact mem_filterMap_getElem _ _ _ hp

theorem idxsOf_lt (table : List Star) (altF : ℚ → ℚ → ℚ) (n : ℚ) (k : Nat)
    (rand : Nat → Nat) :
    ∀ i ∈ idxsOf table altF n k rand, i < (candOf table altF n).length := by
  intro i hi
  unfold idxsOf at hi
  have := sampleIdx_subset rand k _ 0 i hi
  simpa using this

theorem missingOf_length (table : List Star) (altF : ℚ → ℚ → ℚ) (n : ℚ)
    (k : Nat) (rand : Nat → Nat) (hk : k ≤ (candOf table altF n).length) :
    (missingOf table altF n k rand).length = k := by
  unfold missingOf
  rw [filterMap_getElem_length _ _ (idxsOf_lt table altF n k rand)]
  unfold idxsOf
  exact sampleIdx_length rand k _ 0 (by simpa using hk)

/-- C2: every star in the removal-candidate set `df_cand` is a catalog entry
with a non-null HIP identifier and apparent magnitude at most the requested
threshold `n`. -/
theorem candidates_wellformed (table : List Star) (altF : ℚ → ℚ → ℚ) (n : ℚ)
    (p : Star × ℚ) (hp : p ∈ candOf table altF n) :
    p.1 ∈ table ∧ p.1.hip.isSome = true ∧ p.1.magnitude ≤ n := by
  obtain ⟨h1, h2, -, h4, -, -⟩ := mem_candOf_unpack table altF n p hp
  exact ⟨h1, h2, h4⟩

theorem candidates_wellformed_witness :
    (⟨some 1, 10, 20, 1⟩ : Star) ∈ demoTable ∧
      (Option.isSome (some 1) = true) ∧ ((1 : ℚ) ≤ 3) :=
  candidates_wellformed demoTable demoAlt 3 (⟨some 1, 10, 20, 1⟩, 20) (by decide)

/-- C8: the catalog is pre-filtered to magnitude at most `MAX_PLOT_MAG = 4.0`
before the user's threshold `n` is applied, so every removal candidate has
magnitude at most `4.0` even when `n` exceeds `4.0`: the effective threshold
is `min n 4.0`. -/
theorem candidates_mag_capped (table : List Star) (altF : ℚ → ℚ → ℚ) (n : ℚ)
    (p : Star × ℚ) (hp : p ∈ candOf table altF n) :
    p.1.magnitude ≤ MAX_PLOT_MAG ∧ p.1.magnitude ≤ min n MAX_PLOT_MAG := by
  obtain ⟨-, -, h3, h4, -, -⟩ := mem_candOf_unpack table altF n p hp
  exact ⟨h3, le_min h4 h3⟩

theorem candidates_mag_capped_witness :
    ((3 : ℚ) ≤ MAX_PLOT_MAG) ∧ ((3 : ℚ) ≤ min 10 MAX_PLOT_MAG) :=
  candidates_mag_capped demoTable demoAlt 10 (⟨some 3, 50, 60, 3⟩, 60) (by decide)

/-- C7: the rows drawn on the problem chart (`df_problem`) are exactly the
visible rows whose HIP is not among the removed HIPs, and no removed star is
drawn on the problem chart. -/
theorem problem_chart_rows (table : List Star) (altF : ℚ → ℚ → ℚ) (n : ℚ)
    (k : Nat) (rand : Nat → Nat) :
    (∀ p, p ∈ problemOf table altF n k rand ↔
      (p ∈ visibleOf table altF ∧
        ∀ h, p.1.hip = some h → h ∉ hipsOf table altF n k rand)) ∧
    (∀ m ∈ missingOf table altF n k rand, m ∉ problemOf table altF n k rand) := by
  constructor
  · intro p
    unfold problemOf
    rw [List.mem_filter, option_all_decide_iff]
  · intro m hm hprob
    have hcand := mem_missingOf_mem_cand table altF n k rand m hm
    obtain ⟨-, hhip, -, -, -, -⟩ := mem_candOf_unpack table altF n m hcand
    obtain ⟨h, hh⟩ := Option.isSome_iff_exists.mp hhip
    have hmemhip : h ∈ hipsOf table altF n k rand := by
      unfold hipsOf
      rw [List.mem_filterMap]
      exact ⟨m, hm, hh⟩
    unfold problemOf at hprob
    rw [List.mem_filter] at hprob
    exact ((option_all_decide_iff _ _).mp hprob.2 h hh) hmemhip

theorem problem_chart_rows_witness :
    (⟨some 1, 10, 20, 1⟩, (20 : ℚ)) ∉ problemOf demoTable demoAlt 3 2 demoRand :=
  (problem_chart_rows demoTable demoAlt 3 2 demoRand).2
    (⟨some 1, 10, 20, 1⟩, (20 : ℚ)) (by decide)

/-- C10: the `k` removed stars are sampled without replacement: the sampled
row positions are pairwise distinct, there are exactly `k` of them, each is a
valid position of `df_cand`, and exactly `k` rows result. -/
theorem sample_distinct_rows (table : List Star) (altF : ℚ → ℚ → ℚ) (n : ℚ)
    (k : Nat) (rand : Nat → Nat) (hk : k ≤ (candOf table altF n).length) :
    (idxsOf table altF n k rand).Nodup ∧
    (idxsOf table altF n k rand).length = k ∧
    (∀ i ∈ idxsOf table altF n k rand, i < (candOf table altF n).length) ∧
    (missingOf table altF n k rand).length = k := by
  refine ⟨?_, ?_, idxsOf_lt table altF n k rand, missingOf_length table altF n k rand hk⟩
  · exact sampleIdx_nodup rand k _ 0 (List.nodup_range _)
  · unfold idxsOf
    exact sampleIdx_length rand k _ 0 (by simpa using hk)

theorem sample_distinct_rows_witness :
    (idxsOf demoTable demoAlt 3 2 demoRand).Nodup ∧
      (missingOf demoTable demoAlt 3 2 demoRand).length = 2 :=
  ⟨(sample_distinct_rows demoTable demoAlt 3 2 demoRand (by decide)).1,
   (sample_distinct_rows demoTable demoAlt 3 2 demoRand (by decide)).2.2.2⟩

/-- C1: when the candidate pool holds at least `k` stars, exactly `k` stars
are sampled for removal; when it holds fewer, the request yields an inline
error and removes no stars. -/
theorem sample_size_or_error (table : List Star) (date_str time_str : String)
    (lat lon : ℚ) (n : ℚ) (k : Nat) (altF : ℚ → ℚ → ℚ) (rand : Nat → Nat)
    (hdt : (parseDateTime date_str time_str).isSome = true) :
    (k ≤ (candOf table altF n).length →
      (runRequest table date_str time_str lat lon n k altF rand).data.map
        (fun d => d.missing_stars.length) = some k) ∧
    ((candOf table altF n).length < k →
      (runRequest table date_str time_str lat lon n k altF rand).data = none ∧
      hasErrorEffect
        (runRequest table date_str time_str lat lon n k altF rand).effects
          = true) := by
  obtain ⟨dt0, hdt0⟩ := Option.isSome_iff_exists.mp hdt
  constructor
  · intro hk
    unfold runRequest
    simp only [hdt0]
    rw [if_neg (not_lt.mpr hk)]
    exact congrArg some (missingOf_length table altF n k rand hk)
  · intro hlt
    unfold runRequest
    simp only [hdt0]
    rw [if_pos hlt]
    exact ⟨rfl, rfl⟩

theorem sample_size_or_error_witness :
    (runRequest demoTable ("2023-07-13") ("22:00") 37 126 3 2 demoAlt
        demoRand).data.map (fun d => d.missing_stars.length) = some 2 ∧
    (runRequest demoTable ("2023-07-13") ("22:00") 37 126 3 5 demoAlt
        demoRand).data = none :=
  ⟨(sample_size_or_error demoTable ("2023-07-13") ("22:00") 37 126 3 2 demoAlt
      demoRand (by decide)).1 (by decide),
   ((sample_size_or_error demoTable ("2023-07-13") ("22:00") 37 126 3 5 demoAlt
      demoRand (by decide)).2 (by decide)).1⟩

/-- C5: on either failure (unparseable date/time or fewer candidates than
`k`) the request halts right after the inline error: no data is produced,
no image is exported, and the effect trace is exactly the progress note
followed by the error message. -/
theorem error_halts_without_output (table : List Star)
    (date_str time_str : String) (lat lon : ℚ) (n : ℚ) (k : Nat)
    (altF : ℚ → ℚ → ℚ) (rand : Nat → Nat)
    (herr : hasErrorEffect
      (runRequest table date_str time_str lat lon n k altF rand).effects
        = true) :
    (runRequest table date_str time_str lat lon n k altF rand).data = none ∧
    hasExportEffect
      (runRequest table date_str time_str lat lon n k altF rand).effects
        = false ∧
    ∃ msg, (runRequest table date_str time_str lat lon n k altF rand).effects =
      [Effect.info ("성도 생성 중… 잠시만 기다려 주세요."),
       Effect.errorMsg msg] := by
  cases hp : parseDateTime date_str time_str with
  | none =>
    unfold runRequest
    simp only [hp]
    exact ⟨trivial, rfl, _, rfl⟩
  | some dt0 =>
    by_cases hlt : (candOf table altF n).length < k
    · unfold runRequest
      simp only [hp]
      rw [if_pos hlt]
      exact ⟨rfl, rfl, _, rfl⟩
    · exfalso
      unfold runRequest at herr
      simp only [hp] at herr
      rw [if_neg hlt] at herr
      simp [hasErrorEffect] at herr

theorem error_halts_without_output_witness :
    (runRequest demoTable ("2023-07-13") ("22:00") 37 126 3 5 demoAlt
        demoRand).data = none ∧
    hasExportEffect
      (runRequest demoTable ("2023-07-13") ("22:00") 37 126 3 5 demoAlt
        demoRand).effects = false :=
  ⟨(error_halts_without_output demoTable ("2023-07-13") ("22:00") 37 126 3 5
      demoAlt demoRand (by decide)).1,
   (error_halts_without_output demoTable ("2023-07-13") ("22:00") 37 126 3 5
      demoAlt demoRand (by decide)).2.1⟩

/-- C6: a date or time that the date-time parser rejects is a user-visible
failure: the trace is the progress note followed by the inline error message
and nothing further, and no data is produced. -/
theorem bad_datetime_halts (table : List Star) (date_str time_str : String)
    (lat lon : ℚ) (n : ℚ) (k : Nat) (altF : ℚ → ℚ → ℚ) (rand : Nat → Nat)
    (hbad : parseDateTime date_str time_str = none) :
    (runRequest table date_str time_str lat lon n k altF rand).effects =
      [Effect.info ("성도 생성 중… 잠시만 기다려 주세요."),
       Effect.errorMsg ("날짜 또는 시간 형식이 잘못되었습니다.")] ∧
    (runRequest table date_str time_str lat lon n k altF rand).data = none := by
  unfold runRequest
  rw [hbad]
  exact ⟨rfl, rfl⟩

theorem bad_datetime_halts_witness :
    (runRequest demoTable ("2023-13-01") ("22:00") 37 126 3 2 demoAlt
        demoRand).data = none :=
  (bad_datetime_halts demoTable ("2023-13-01") ("22:00") 37 126 3 2 demoAlt
    demoRand (by decide)).2

/-- C9: the observer's date-time always carries the fixed Asia/Seoul
timezone, for every latitude and longitude the user enters; the replace step
installs that constant unconditionally, and no request input carries a
timezone. -/
theorem timezone_always_seoul (table : List Star) (date_str time_str : String)
    (lat lon : ℚ) (n : ℚ) (k : Nat) (altF : ℚ → ℚ → ℚ) (rand : Nat → Nat) :
    ((runRequest table date_str time_str lat lon n k altF rand).data.map
      (fun d => d.observer.dt.tz))
      = ((runRequest table date_str time_str lat lon n k altF rand).data.map
        (fun _ => some ("Asia/Seoul"))) ∧
    ∀ dt : DateTime, (replaceSeoul dt).tz = some ("Asia/Seoul") := by
  constructor
  · cases hp : parseDateTime date_str time_str with
    | none =>
      unfold runRequest
      simp only [hp]
      rfl
    | some dt0 =>
      unfold runRequest
      simp only [hp]
      by_cases hlt : (candOf table altF n).length < k
      · rw [if_pos hlt]
        rfl
      · rw [if_neg hlt]
        rfl
  · intro dt
    rfl

theorem max_min_eq_clamp (s : ℝ) : max (-1 : ℝ) (min 1 s) = clampToUnit s := by
  unfold clampToUnit
  split_ifs with h1 h2
  · rw [min_eq_right (le_of_lt (h1.trans (by norm_num))), max_eq_left (le_of_lt h1)]
  · rw [min_eq_left (le_of_lt h2), max_eq_right (by norm_num : (-1 : ℝ) ≤ 1)]
  · rw [min_eq_right (not_lt.mp h2), max_eq_right (not_lt.mp h1)]

/-- C4: the equatorial-to-altitude conversion is the single pure function
`altaz`, and it computes exactly the spec's composition: the
spherical-trigonometry identity `sin(alt) = sin(lat)sin(dec) +
cos(lat)cos(dec)cos(hour-angle)`, clamped to `[-1, 1]`, then the inverse
sine. -/
theorem altaz_matches_spec_formula :
    ∀ lat dec ha : ℝ, altaz lat dec ha = specAltitude lat dec ha := by
  intro lat dec ha
  unfold altaz specAltitude sinAltFormula
  rw [max_min_eq_clamp]

/-- C3: for every latitude, declination and hour-angle input, the computed
altitude lies in `[-90, 90]` degrees; and at the zenith (hour angle `0`,
declination equal to the observer's latitude) the computed altitude equals
`90` degrees. -/
theorem altitude_range_and_zenith :
    (∀ lat dec ha : ℝ, -90 ≤ altaz lat dec ha ∧ altaz lat dec ha ≤ 90) ∧
    (∀ lat : ℝ, altaz lat lat 0 = 90) := by
  have hrange : ∀ x : ℝ, -90 ≤ Real.arcsin x * 180 / Real.pi ∧
      Real.arcsin x * 180 / Real.pi ≤ 90 := by
    intro x
    have h1 := Real.arcsin_le_pi_div_two x
    have h2 := Real.neg_pi_div_two_le_arcsin x
    have hp := Real.pi_pos
    constructor
    · rw [le_div_iff₀ hp]
      nlinarith
    · rw [div_le_iff₀ hp]
      nlinarith
  constructor
  · intro lat dec ha
    exact hrange _
  · intro lat
    unfold altaz
    have h0 : (0 : ℝ) * Real.pi / 180 = 0 := by ring
    rw [h0, Real.cos_zero, mul_one]
    have hs : Real.sin (lat * Real.pi / 180) * Real.sin (lat * Real.pi / 180) +
        Real.cos (lat * Real.pi / 180) * Real.cos (lat * Real.pi / 180) = 1 := by
      have h := Real.sin_sq_add_cos_sq (lat * Real.pi / 180)
      nlinarith [h]
    rw [hs]
    have hone : max (-1 : ℝ) (min 1 1) = 1 := by norm_num
    rw [hone, Real.arcsin_one]
    field_simp
    ring

end AstroApp
